import Mathlib

/-!
Verification development for the ReMarkSync repository's binary decoder
(`src/parser.ts`), pen/color tables (`src/constants.ts`), numeric utilities
(`src/utils.ts`) and Excalidraw converter (`src/converter.ts`).

The TypeScript code is shallowly embedded: byte buffers are `List Nat`
(each entry a byte value), 32-bit machine integers are `Nat`/`Int` with
explicit reduction modulo 2^32, IEEE-754 floats are decoded exactly into
`ℚ` (the claims under study never depend on NaN/Infinity payloads, which
have no `ℚ` counterpart and are mapped to 0), and fallible reads return
`Option`/`Except` mirroring `DataView`'s out-of-range exception.
-/

/- `Batteries` marks the `Rat` arithmetic operations `@[irreducible]`, which
blocks `decide`-style evaluation of concrete decoder runs.  Restoring the
default reducibility locally lets closed instances be checked by kernel
reduction; it has no bearing on soundness. -/
set_option allowUnsafeReducibility true
attribute [local semireducible] Rat.mul Rat.add Rat.sub Rat.inv

namespace ReMarkSync

/-- Byte buffers: a file is a list of byte values. -/
abbrev Buf := List Nat

/-- Read one byte (DataView.getUint8): fails iff the offset is out of range.
The value is reduced mod 256 because an ArrayBuffer cell is one byte. -/
def byteAt (buf : Buf) (i : Nat) : Option Nat :=
  (buf.get? i).map (· % 256)

/-- Little-endian unsigned 16-bit read (DataView.getUint16 with littleEndian). -/
def readU16 (buf : Buf) (i : Nat) : Option Nat := do
  let b0 ← byteAt buf i
  let b1 ← byteAt buf (i + 1)
  pure (b0 + 256 * b1)

/-- Little-endian unsigned 32-bit read (DataView.getUint32 with littleEndian). -/
def readU32 (buf : Buf) (i : Nat) : Option Nat := do
  let b0 ← byteAt buf i
  let b1 ← byteAt buf (i + 1)
  let b2 ← byteAt buf (i + 2)
  let b3 ← byteAt buf (i + 3)
  pure (b0 + 256 * b1 + 65536 * b2 + 16777216 * b3)

/-- Interpret a 32-bit pattern as a JavaScript signed 32-bit integer. -/
def jsToInt32 (u : Nat) : Int :=
  if u % 4294967296 < 2147483648 then ((u % 4294967296 : Nat) : Int)
  else ((u % 4294967296 : Nat) : Int) - 4294967296

/-- Little-endian signed 32-bit read (DataView.getInt32 with littleEndian). -/
def readI32 (buf : Buf) (i : Nat) : Option Int :=
  (readU32 buf i).map jsToInt32

/-- Total variant of `readU32` used only at call sites that the surrounding
code has already bounds-checked (the checked read never takes the default). -/
def readU32D (buf : Buf) (i : Nat) : Nat := (readU32 buf i).getD 0

/-- Total variant of `readI32` used only at bounds-checked call sites. -/
def readI32D (buf : Buf) (i : Nat) : Int := (readI32 buf i).getD 0

/-- Exact value of an IEEE-754 binary32 bit pattern as a rational.
NaN and the infinities (exponent 255) have no rational counterpart and are
mapped to 0; no claim under study depends on them. -/
def decodeF32 (u : Nat) : ℚ :=
  let v := u % 4294967296
  let sign := v / 2147483648
  let expo := v / 8388608 % 256
  let frac := v % 8388608
  let mag : ℚ :=
    if expo = 255 then 0
    else if expo = 0 then (frac : ℚ) / ((2 : ℚ) ^ (149 : Nat))
    else if 150 ≤ expo then ((8388608 + frac : Nat) : ℚ) * (2 : ℚ) ^ (expo - 150)
    else ((8388608 + frac : Nat) : ℚ) / ((2 : ℚ) ^ (150 - expo))
  if sign = 1 then -mag else mag

/-- Exact value of an IEEE-754 binary64 bit pattern as a rational
(same conventions as `decodeF32`). -/
def decodeF64 (u : Nat) : ℚ :=
  let v := u % 18446744073709551616
  let sign := v / 9223372036854775808
  let expo := v / 4503599627370496 % 2048
  let frac := v % 4503599627370496
  let mag : ℚ :=
    if expo = 2047 then 0
    else if expo = 0 then (frac : ℚ) / ((2 : ℚ) ^ (1074 : Nat))
    else if 1075 ≤ expo then
      ((4503599627370496 + frac : Nat) : ℚ) * (2 : ℚ) ^ (expo - 1075)
    else ((4503599627370496 + frac : Nat) : ℚ) / ((2 : ℚ) ^ (1075 - expo))
  if sign = 1 then -mag else mag

/-- Little-endian float32 read (DataView.getFloat32 with littleEndian). -/
def readF32 (buf : Buf) (i : Nat) : Option ℚ :=
  (readU32 buf i).map decodeF32

/-- Little-endian float64 read (DataView.getFloat64 with littleEndian). -/
def readF64 (buf : Buf) (i : Nat) : Option ℚ := do
  let lo ← readU32 buf i
  let hi ← readU32 buf (i + 4)
  pure (decodeF64 (lo + 4294967296 * hi))

/-- Total variant of `readF32` for bounds-checked call sites. -/
def readF32D (buf : Buf) (i : Nat) : ℚ := (readF32 buf i).getD 0

/-! ### Data model (`src/types.ts`) -/

/-- Model of `RMVersion` from types.ts. -/
inductive RMVersion where
  | V3
  | V5
  | V6
  | UNKNOWN
  deriving Repr, DecidableEq

/-- Model of `Point` from types.ts: one sampled location along a stroke. -/
structure Point where
  x : ℚ
  y : ℚ
  pressure : ℚ
  width : ℚ
  speed : ℚ
  direction : ℚ
  deriving Repr, DecidableEq

/-- Model of `Stroke` from types.ts.  Pen and color are open enumerations: the parser
casts raw 32-bit values, so they are carried as integers. -/
structure Stroke where
  pen : Int
  color : Int
  width : ℚ
  points : List Point
  layerIndex : Nat
  deriving Repr, DecidableEq

/-- Model of `ParsedDocument` from types.ts. -/
structure ParsedDocument where
  version : RMVersion
  layers : List (List Stroke)
  deriving Repr, DecidableEq

/-- Model of `ParseError` from types.ts (the optional `details` field is omitted:
it only ever carries a JS stack trace). -/
structure ParseError where
  message : String
  offset : Nat
  deriving Repr, DecidableEq

/-- Model of `ParseResult` from types.ts. -/
inductive ParseResult where
  | success (document : ParsedDocument)
  | failure (error : ParseError)
  deriving Repr, DecidableEq

/-! ### Header validation (`src/parser.ts`, `validateHeader`) -/

/-- ASCII bytes of a Lean string literal (all magic strings are ASCII). -/
def asciiBytes (s : String) : List Nat := s.data.map Char.toNat

/-- Model of `HEADER_V3` from constants.ts. -/
def HEADER_V3 : List Nat := asciiBytes "reMarkable .lines file, version=3"

/-- Model of `HEADER_V5` from constants.ts. -/
def HEADER_V5 : List Nat := asciiBytes "reMarkable .lines file, version=5"

/-- Model of `HEADER_V6` from constants.ts. -/
def HEADER_V6 : List Nat := asciiBytes "reMarkable .lines file, version=6"

/-- The general magic pattern tested by `validateHeader`. -/
def HEADER_MAGIC : List Nat := asciiBytes "reMarkable .lines file, version="

/-- Model of `headerText.startsWith(p)` at the byte level.  All the patterns tested
are pure ASCII and `TextDecoder("utf-8")` maps a byte below 128 to exactly
that code point (and never produces an ASCII character from any other input
byte), so the byte-level check coincides with the source's string check. -/
def hdrStartsWith (p : List Nat) (header : List Nat) : Bool :=
  p.isPrefixOf header

/-- Is this byte an ASCII digit? (`\d` in the version-number regex). -/
def isDigitByte (b : Nat) : Bool := 48 ≤ b ∧ b ≤ 57

/-- Value of the maximal leading digit run (`parseInt(match[1], 10)`).
Exact: every reachable call site captures at most 11 digits (the capture
lives inside a 43-byte header), well below the 2^53 precision limit. -/
def digitRunVal (l : List Nat) : Nat :=
  (l.takeWhile isDigitByte).foldl (fun acc b => 10 * acc + (b - 48)) 0

/-- The regex `/version=(\d+)/`: find the first occurrence of `version=`
followed by at least one digit, and return the captured number. -/
def findVer : List Nat → Option Nat
  | [] => none
  | b :: rest =>
    if hdrStartsWith (asciiBytes "version=") (b :: rest)
        && (match (b :: rest).drop 8 with
            | [] => false
            | d :: _ => isDigitByte d) then
      some (digitRunVal ((b :: rest).drop 8))
    else
      findVer rest

/-- Result of `validateHeader`. -/
structure HeaderValidation where
  valid : Bool
  version : RMVersion
  error : Option String
  deriving Repr, DecidableEq

/-- Model of `validateHeader` from parser.ts: minimum-size check, three-way version
detection by magic prefixes, unsupported-version path via the regex, and
the generic invalid-header fallback. -/
def validateHeader (buf : Buf) : HeaderValidation :=
  if buf.length < 33 then
    { valid := false, version := .UNKNOWN,
      error := some ("File too small: " ++ toString buf.length ++
        " bytes, minimum 33 required") }
  else
    let headerBytes := buf.take 43
    if hdrStartsWith HEADER_V6 headerBytes then
      { valid := true, version := .V6, error := none }
    else if hdrStartsWith HEADER_V5 headerBytes then
      { valid := true, version := .V5, error := none }
    else if hdrStartsWith HEADER_V3 headerBytes then
      { valid := true, version := .V3, error := none }
    else if hdrStartsWith HEADER_MAGIC headerBytes then
      match findVer headerBytes with
      | some versionNum =>
        { valid := false, version := .UNKNOWN,
          error := some ("Unsupported version: " ++ toString versionNum ++
            ". Supported versions: 3, 5, 6") }
      | none =>
        { valid := false, version := .UNKNOWN,
          error := some "Invalid file format: missing reMarkable header magic string" }
    else
      { valid := false, version := .UNKNOWN,
        error := some "Invalid file format: missing reMarkable header magic string" }

/-! ### Revision 3/5 decoding (`src/parser.ts`, `parseV5` / `parseLayer` / `parseStroke`)

The source threads a mutable cursor through the `RemarkableParser` instance;
here every function takes the cursor and returns the cursor it left behind
(also on failure, since `parseV5` reports `this.cursor` as the error offset).
All `DataView` reads below are guarded by the same explicit bounds checks the
source performs, so the total `read*D` variants never take their default. -/

/-- Model of `HEADER_SIZES` from constants.ts, with the `|| 43` fallback of `parseV5`. -/
def HEADER_SIZES (ver : RMVersion) : Nat :=
  match ver with
  | .V3 => 33
  | .V5 => 43
  | .V6 => 43
  | .UNKNOWN => 43

/-- Stroke header size: 24 bytes for v5, 20 for v3 (`parseStroke`). -/
def strokeHeaderSize (ver : RMVersion) : Nat :=
  if ver = RMVersion.V3 then 20 else 24

/-- The v5/v3 point loop of `parseStroke`: `n` packed 24-byte point records
(6 little-endian float32s: x, y, speed, direction, width, pressure). -/
def readPointsV5 (buf : Buf) : Nat → Nat → List Point
  | _, 0 => []
  | c, n + 1 =>
    { x := readF32D buf c,
      y := readF32D buf (c + 4),
      speed := readF32D buf (c + 8),
      direction := readF32D buf (c + 12),
      width := readF32D buf (c + 16),
      pressure := readF32D buf (c + 20) } :: readPointsV5 buf (c + 24) n

/-- Model of `parseStroke` from parser.ts (revision 3/5). -/
def parseStroke (buf : Buf) (ver : RMVersion) (layerIndex : Nat) (c : Nat) :
    (Except String Stroke) × Nat :=
  let headerSize := strokeHeaderSize ver
  if c + headerSize > buf.length then
    (.error "Cannot read stroke header", c)
  else
    let pen := readI32D buf c
    let color := readI32D buf (c + 4)
    -- c + 8: padding/selection flag, read and discarded
    let baseWidth := readF32D buf (c + 12)
    -- v5 reads one extra (discarded) 32-bit field before the point count
    let npOff := if ver = RMVersion.V3 then c + 16 else c + 20
    let numPoints := readI32D buf npOff
    let c1 := c + headerSize
    if numPoints < 0 ∨ numPoints > 100000 then
      (.error ("Invalid point count: " ++ toString numPoints), c1)
    else if c1 + numPoints.toNat * 24 > buf.length then
      (.error ("Not enough bytes for " ++ toString numPoints ++ " points"), c1)
    else
      (.ok { pen := pen, color := color, width := baseWidth,
             points := readPointsV5 buf c1 numPoints.toNat,
             layerIndex := layerIndex },
       c1 + numPoints.toNat * 24)

/-- The stroke loop of `parseLayer`: the first failing stroke aborts the layer
with an error naming the stroke index. -/
def parseStrokesAux (buf : Buf) (ver : RMVersion) (layerIndex : Nat) :
    Nat → Nat → Nat → List Stroke → (Except String (List Stroke)) × Nat
  | _, 0, c, acc => (.ok acc.reverse, c)
  | i, k + 1, c, acc =>
    match parseStroke buf ver layerIndex c with
    | (.error e, c') => (.error ("Stroke " ++ toString i ++ ": " ++ e), c')
    | (.ok s, c') => parseStrokesAux buf ver layerIndex (i + 1) k c' (s :: acc)

/-- Model of `parseLayer` from parser.ts. -/
def parseLayer (buf : Buf) (ver : RMVersion) (layerIndex : Nat) (c : Nat) :
    (Except String (List Stroke)) × Nat :=
  if c + 4 > buf.length then
    (.error "Cannot read stroke count", c)
  else
    let numStrokes := readI32D buf c
    if numStrokes < 0 ∨ numStrokes > 100000 then
      (.error ("Invalid stroke count: " ++ toString numStrokes), c + 4)
    else
      parseStrokesAux buf ver layerIndex 0 numStrokes.toNat (c + 4) []

/-- The layer loop of `parseV5`: the first failing layer aborts the decode
with an error naming the layer index, at the cursor where parsing stopped. -/
def parseLayersAux (buf : Buf) (ver : RMVersion) :
    Nat → Nat → Nat → List (List Stroke) →
    (Except ParseError (List (List Stroke))) × Nat
  | _, 0, c, acc => (.ok acc.reverse, c)
  | idx, k + 1, c, acc =>
    match parseLayer buf ver idx c with
    | (.error e, c') =>
      (.error { message := "Failed to parse layer " ++ toString idx ++ ": " ++ e,
                offset := c' }, c')
    | (.ok strokes, c') => parseLayersAux buf ver (idx + 1) k c' (strokes :: acc)

/-- Model of `parseV5` from parser.ts (also handles v3). -/
def parseV5 (buf : Buf) (ver : RMVersion) : ParseResult :=
  let hs := HEADER_SIZES ver
  if hs + 4 > buf.length then
    .failure { message := "Unexpected end of file: cannot read layer count",
               offset := hs }
  else
    let numLayers := readI32D buf hs
    if numLayers < 0 ∨ numLayers > 100 then
      .failure { message := "Invalid layer count: " ++ toString numLayers ++
                   ". Expected 0-100.",
                 offset := hs }
    else
      match parseLayersAux buf ver 0 numLayers.toNat (hs + 4) [] with
      | (.error e, _) => .failure e
      | (.ok layers, _) => .success { version := ver, layers := layers }

/-! ### Revision 6 decoding (`src/parser.ts`, `parseV6` / `parseV6Stroke`) -/

/-- Model of `readVaruint` from parser.ts.  JavaScript accumulates with
`result |= (byte & 0x7F) << shift`, whose operands are coerced to signed
32-bit integers (shift count taken mod 32); the accumulator is carried here
as its 32-bit pattern, a `Nat` below 2^32.  Fuel is the remaining buffer
length: the source loop consumes one byte per step and stops at the end of
the buffer, so the fuel never runs out at the call sites below. -/
def readVaruintAux (buf : Buf) : Nat → Nat → Nat → Nat → Nat × Nat
  | 0, c, result, _ => (result, c)
  | fuel + 1, c, result, shift =>
    if c < buf.length then
      let b := (byteAt buf c).getD 0
      let result' := result ||| (((b &&& 127) <<< (shift % 32)) % 4294967296)
      if b &&& 128 = 0 then (result', c + 1)
      else readVaruintAux buf fuel (c + 1) result' (shift + 7)
    else (result, c)

/-- Read a varuint at `c`, returning (32-bit value pattern, new cursor). -/
def readVaruint (buf : Buf) (c : Nat) : Nat × Nat :=
  readVaruintAux buf buf.length c 0 0

/-- Model of `skipCrdtId` from parser.ts: skip two varuints, returning the new cursor. -/
def skipCrdtId (buf : Buf) (c : Nat) : Nat :=
  (readVaruint buf (readVaruint buf c).2).2

/-- The exception message of an out-of-range `DataView` read (caught by the
source's `try`; its exact text never matters — v6 stroke errors are
swallowed by `parseV6`). -/
def dataViewMsg : String := "Offset is outside the bounds of the DataView"

/-- JavaScript `tag >> 4` on the signed 32-bit view of the tag pattern `t`
(`t < 2^32`): arithmetic shift right by 4 is floor division by 16 of the
signed value. -/
def tagIndex (t : Nat) : Int :=
  if t < 2147483648 then ((t / 16 : Nat) : Int)
  else ((t / 16 : Nat) : Int) - 268435456

/-- Model of `tag & 0xF`: the wire-type nibble (identical on the signed view). -/
def tagType (t : Nat) : Nat := t % 16

/-- Mutable state of `parseV6Stroke`'s locals. -/
structure V6State where
  pen : Int
  color : Int
  thickness : ℚ
  points : List Point
  deriving Repr, DecidableEq

/-- Initial locals of `parseV6Stroke`: `PenType.BALLPOINT`, `RMColor.BLACK`,
thickness 1.0, no points. -/
def V6State.init : V6State :=
  { pen := 0, color := 0, thickness := 1, points := [] }

/-- The point loop of `parseV6Stroke`'s case 5: up to `n` packed 14-byte
records (x float32, y float32, speed uint16, width uint16, direction uint8,
pressure uint8), stopping early when the next record would cross `blockEnd`.
Speed and width are normalized by 65535, direction maps 0–255 to 0–360
degrees, pressure is normalized by 255. -/
def parseV6Points (buf : Buf) (blockEnd : Nat) :
    Nat → Nat → Except String (List Point × Nat)
  | 0, c => .ok ([], c)
  | n + 1, c =>
    if c + 14 ≤ blockEnd then
      match readF32 buf c, readF32 buf (c + 4), readU16 buf (c + 8),
          readU16 buf (c + 10), byteAt buf (c + 12), byteAt buf (c + 13) with
      | some x, some y, some speed, some width, some direction, some pressure =>
        match parseV6Points buf blockEnd n (c + 14) with
        | .ok (pts, c2) =>
          .ok ({ x := x, y := y,
                 speed := (speed : ℚ) / 65535,
                 width := (width : ℚ) / 65535,
                 direction := ((direction : ℚ) / 255) * 360,
                 pressure := (pressure : ℚ) / 255 } :: pts, c2)
        | .error e => .error e
      | _, _, _, _, _, _ => .error dataViewMsg
    else .ok ([], c)

/-- One iteration of `parseV6Stroke`'s tag loop: read the `(index, wireType)`
tag varuint and dispatch on the index (`switch (index)` in the source). -/
def parseV6StrokeStep (buf : Buf) (blockEnd : Nat) (st : V6State) (c : Nat) :
    Except String (V6State × Nat) :=
  let tc := readVaruint buf c
  let tag := tc.1
  let c1 := tc.2
  let idx := tagIndex tag
  let ty := tagType tag
  if idx = 1 then  -- Pen/Tool ID
    if ty = 4 then
      match readU32 buf c1 with
      | some v => .ok ({ st with pen := (v : Int) }, c1 + 4)
      | none => .error dataViewMsg
    else if ty = 15 then .ok (st, skipCrdtId buf c1)
    else .ok (st, c1)
  else if idx = 2 then  -- Color
    if ty = 4 then
      match readU32 buf c1 with
      | some v => .ok ({ st with color := (v : Int) }, c1 + 4)
      | none => .error dataViewMsg
    else if ty = 15 then .ok (st, skipCrdtId buf c1)
    else .ok (st, c1)
  else if idx = 3 then  -- Thickness scale (double)
    if ty = 8 then
      match readF64 buf c1 with
      | some v => .ok ({ st with thickness := v }, c1 + 8)
      | none => .error dataViewMsg
    else .ok (st, c1)
  else if idx = 4 then  -- Starting length (float), read and discarded
    if ty = 4 then
      match readF32 buf c1 with
      | some _ => .ok (st, c1 + 4)
      | none => .error dataViewMsg
    else .ok (st, c1)
  else if idx = 5 then  -- Points subblock
    if ty = 12 then
      match readU32 buf c1 with
      | some pointsLen =>
        match parseV6Points buf blockEnd (pointsLen / 14) (c1 + 4) with
        | .ok (pts, c2) => .ok ({ st with points := st.points ++ pts }, c2)
        | .error e => .error e
      | none => .error dataViewMsg
    else .ok (st, c1)
  else if idx = 6 ∨ idx = 7 then  -- Timestamp / Move ID
    if ty = 15 then .ok (st, skipCrdtId buf c1)
    else .ok (st, c1)
  else  -- Skip unknown tags by wire type
    if ty = 1 then .ok (st, c1 + 1)
    else if ty = 4 then .ok (st, c1 + 4)
    else if ty = 8 then .ok (st, c1 + 8)
    else if ty = 12 then
      match readU32 buf c1 with
      | some len => .ok (st, c1 + 4 + len)
      | none => .error dataViewMsg
    else if ty = 15 then .ok (st, skipCrdtId buf c1)
    else .ok (st, c1)

/-- The tag loop of `parseV6Stroke` (`while cursor < blockEnd`).  Each
iteration consumes at least one byte whenever the cursor is inside the
buffer, so fuel `blockEnd` is enough at the call sites (`blockEnd` never
exceeds the buffer length there); running out of fuel is reported as an
error so it can never be mistaken for a parsed stroke. -/
def parseV6StrokeLoop (buf : Buf) (blockEnd : Nat) :
    Nat → V6State → Nat → Except String V6State
  | 0, _, _ => .error "V6 stroke parse error: out of fuel"
  | fuel + 1, st, c =>
    if c < blockEnd then
      match parseV6StrokeStep buf blockEnd st c with
      | .error e => .error e
      | .ok (st', c') => parseV6StrokeLoop buf blockEnd fuel st' c'
    else .ok st

/-- Model of `parseV6Stroke` from parser.ts: run the tag loop from the block payload
start and package the locals into a `Stroke` in layer 0 (the `try`/`catch`
turns a `DataView` exception into a stroke-level error). -/
def parseV6Stroke (buf : Buf) (blockEnd : Nat) (c : Nat) : Except String Stroke :=
  match parseV6StrokeLoop buf blockEnd (blockEnd + 1) V6State.init c with
  | .error e => .error ("V6 stroke parse error: " ++ e)
  | .ok st =>
    .ok { pen := st.pen, color := st.color, width := st.thickness,
          points := st.points, layerIndex := 0 }

/-- Model of `V6BlockType.LINE_DEF` (0x5020200) from types.ts. -/
def LINE_DEF : Nat := 84017664

/-- The block scan of `parseV6` (`while cursor + 8 <= byteLength`): read a
`(length, flag)` pair; an invalid length resynchronizes by advancing one
byte past the block start; a LINE_DEF block contributes its stroke when the
stroke parses and has points; other blocks are skipped by their length.
The cursor strictly advances every iteration, so fuel `buf.length + 1`
never runs out. -/
def parseV6Loop (buf : Buf) : Nat → Nat → List Stroke → List Stroke
  | 0, _, acc => acc
  | fuel + 1, c, acc =>
    if c + 8 ≤ buf.length then
      let blockStart := c
      let length := readU32D buf c
      let flag := readU32D buf (c + 4)
      let c8 := c + 8
      if length = 0 ∨ length > buf.length - c8 ∨ length > 10000000 then
        parseV6Loop buf fuel (blockStart + 1) acc
      else if flag = LINE_DEF then
        let blockEnd := c8 + length
        match parseV6Stroke buf blockEnd c8 with
        | .ok stroke =>
          if stroke.points.length > 0 then parseV6Loop buf fuel blockEnd (acc ++ [stroke])
          else parseV6Loop buf fuel blockEnd acc
        | .error _ => parseV6Loop buf fuel blockEnd acc
      else
        parseV6Loop buf fuel (c8 + length) acc
    else acc

/-- Model of `parseV6` from parser.ts: scan blocks from offset 43 and put all decoded
strokes into a single synthetic layer 0.  Always succeeds. -/
def parseV6 (buf : Buf) : ParseResult :=
  .success { version := .V6, layers := [parseV6Loop buf (buf.length + 1) 43 []] }

/-- Model of `parse` from parser.ts: validate the header, then dispatch by version. -/
def parse (buf : Buf) : ParseResult :=
  let hv := validateHeader buf
  if hv.valid then
    match hv.version with
    | .V6 => parseV6 buf
    | .V5 => parseV5 buf .V5
    | .V3 => parseV5 buf .V3
    | .UNKNOWN => .failure { message := "Cannot parse version -1", offset := 0 }
  else
    .failure { message := hv.error.getD "Invalid header", offset := 0 }

/-! ### Pen and color tables (`src/constants.ts`) -/

/-- Model of `PenCharacteristics` from types.ts. -/
structure PenCharacteristics where
  baseMultiplier : ℚ
  pressureSensitive : Bool
  opacity : Nat
  roughness : Nat
  strokeStyle : String
  simulatePressure : Bool
  deriving Repr, DecidableEq

/-- Model of `PEN_CHARACTERISTICS` from constants.ts: a partial record keyed by the
`PenType` enum values (0–8 and 12–18); any other key is absent.  Pen values
reach this table as raw decoded integers, hence the `Int` key. -/
def PEN_CHARACTERISTICS (pen : Int) : Option PenCharacteristics :=
  match pen with
  | 0 => some { baseMultiplier := 1, pressureSensitive := true, opacity := 100,
                roughness := 0, strokeStyle := "solid", simulatePressure := false }
  | 1 => some { baseMultiplier := 18/10, pressureSensitive := true, opacity := 100,
                roughness := 1, strokeStyle := "solid", simulatePressure := false }
  | 2 => some { baseMultiplier := 6/10, pressureSensitive := false, opacity := 100,
                roughness := 0, strokeStyle := "solid", simulatePressure := true }
  | 3 => some { baseMultiplier := 8, pressureSensitive := false, opacity := 40,
                roughness := 1, strokeStyle := "solid", simulatePressure := true }
  | 4 => some { baseMultiplier := 2, pressureSensitive := true, opacity := 100,
                roughness := 0, strokeStyle := "solid", simulatePressure := false }
  | 5 => some { baseMultiplier := 5/10, pressureSensitive := true, opacity := 90,
                roughness := 1, strokeStyle := "solid", simulatePressure := false }
  | 6 => some { baseMultiplier := 25/10, pressureSensitive := true, opacity := 100,
                roughness := 2, strokeStyle := "solid", simulatePressure := false }
  | 7 => some { baseMultiplier := 15/10, pressureSensitive := true, opacity := 100,
                roughness := 0, strokeStyle := "solid", simulatePressure := false }
  | 8 => some { baseMultiplier := 1, pressureSensitive := true, opacity := 85,
                roughness := 2, strokeStyle := "solid", simulatePressure := false }
  | 12 => some { baseMultiplier := 1, pressureSensitive := true, opacity := 100,
                 roughness := 0, strokeStyle := "solid", simulatePressure := false }
  | 13 => some { baseMultiplier := 18/10, pressureSensitive := true, opacity := 100,
                 roughness := 1, strokeStyle := "solid", simulatePressure := false }
  | 14 => some { baseMultiplier := 6/10, pressureSensitive := false, opacity := 100,
                 roughness := 0, strokeStyle := "solid", simulatePressure := true }
  | 15 => some { baseMultiplier := 8, pressureSensitive := false, opacity := 40,
                 roughness := 1, strokeStyle := "solid", simulatePressure := true }
  | 16 => some { baseMultiplier := 2, pressureSensitive := true, opacity := 100,
                 roughness := 0, strokeStyle := "solid", simulatePressure := false }
  | 17 => some { baseMultiplier := 5/10, pressureSensitive := true, opacity := 90,
                 roughness := 1, strokeStyle := "solid", simulatePressure := false }
  | 18 => some { baseMultiplier := 25/10, pressureSensitive := true, opacity := 100,
                 roughness := 2, strokeStyle := "solid", simulatePressure := false }
  | _ => none

/-- Model of `DEFAULT_PEN_CHARACTERISTICS` from constants.ts. -/
def DEFAULT_PEN_CHARACTERISTICS : PenCharacteristics :=
  { baseMultiplier := 1, pressureSensitive := true, opacity := 100,
    roughness := 1, strokeStyle := "solid", simulatePressure := false }

/-- Model of `getPenCharacteristics` from constants.ts (`??` fallback). -/
def getPenCharacteristics (pen : Int) : PenCharacteristics :=
  (PEN_CHARACTERISTICS pen).getD DEFAULT_PEN_CHARACTERISTICS

/-- Model of `COLOR_MAP` from constants.ts, keyed by the `RMColor` enum values 0–8. -/
def COLOR_MAP (color : Int) : Option String :=
  match color with
  | 0 => some "#000000"
  | 1 => some "#808080"
  | 2 => some "#FFFFFF"
  | 3 => some "#FFEB3B"
  | 4 => some "#4CAF50"
  | 5 => some "#E91E63"
  | 6 => some "#2196F3"
  | 7 => some "#F44336"
  | 8 => some "#A0A0A0"
  | _ => none

/-- Model of `getHexColor` from constants.ts: `COLOR_MAP[color] ?? COLOR_MAP[BLACK]`. -/
def getHexColor (color : Int) : String :=
  (COLOR_MAP color).getD "#000000"

/-! ### Numeric utilities (`src/utils.ts`) -/

/-- Model of `normalizePressure` from utils.ts: clamp to [0, 1]. -/
def normalizePressure (pressure : ℚ) : ℚ :=
  max 0 (min 1 pressure)

/-- Model of `calculateStrokeWidth` from utils.ts: apply the pen multiplier and user
scale, then clamp to Excalidraw's renderable range [1, 16]. -/
def calculateStrokeWidth (baseWidth multiplier scale : ℚ) : ℚ :=
  max 1 (min 16 (baseWidth * multiplier * scale))

/-! ### Converter (`src/converter.ts`)

The source draws fresh ids, render seeds and timestamps from
`generateId` / `generateSeed` / `Date.now`.  These are the converter's only
non-pure inputs; they are embedded as three injected streams (a function of
the call counter each), with the counters threaded through the conversion
in the source's call order. -/

/-- Model of `ConversionOptions` from converter.ts. -/
structure ConversionOptions where
  preserveLayers : Bool
  includeEraser : Bool
  strokeWidthScale : ℚ
  deriving Repr, DecidableEq

/-- Model of `DEFAULT_OPTIONS` from converter.ts. -/
def DEFAULT_OPTIONS : ConversionOptions :=
  { preserveLayers := true, includeEraser := false, strokeWidthScale := 1/2 }

/-- The three injected effect sources: unique ids, render seeds, clock. -/
structure GenCtx where
  idGen : Nat → String
  seedGen : Nat → Nat
  nowGen : Nat → Nat

/-- Call counters for the three streams. -/
structure GenState where
  idN : Nat
  seedN : Nat
  nowN : Nat
  deriving Repr, DecidableEq

/-- Counters at the start of a `convert` call. -/
def GenState.start : GenState := { idN := 0, seedN := 0, nowN := 0 }

/-- One `generateId()` call. -/
def nextId (ctx : GenCtx) (st : GenState) : String × GenState :=
  (ctx.idGen st.idN, { st with idN := st.idN + 1 })

/-- One `generateSeed()` call. -/
def nextSeed (ctx : GenCtx) (st : GenState) : Nat × GenState :=
  (ctx.seedGen st.seedN, { st with seedN := st.seedN + 1 })

/-- One `Date.now()` call. -/
def nextNow (ctx : GenCtx) (st : GenState) : Nat × GenState :=
  (ctx.nowGen st.nowN, { st with nowN := st.nowN + 1 })

/-- Model of `ExcalidrawFreedrawElement` from types.ts. -/
structure FreedrawElement where
  version : Nat
  versionNonce : Nat
  isDeleted : Bool
  id : String
  fillStyle : String
  strokeWidth : ℚ
  strokeStyle : String
  roughness : Nat
  opacity : Nat
  angle : ℚ
  x : ℚ
  y : ℚ
  strokeColor : String
  backgroundColor : String
  width : ℚ
  height : ℚ
  seed : Nat
  groupIds : List String
  frameId : Option String
  roundness : Option Unit
  boundElements : Option Unit
  updated : Nat
  link : Option String
  locked : Bool
  points : List (ℚ × ℚ)
  pressures : List ℚ
  simulatePressure : Bool
  lastCommittedPoint : Option (ℚ × ℚ)
  deriving Repr, DecidableEq

/-- Model of `ExcalidrawImageElement` from types.ts. -/
structure ImageElement where
  version : Nat
  versionNonce : Nat
  isDeleted : Bool
  id : String
  fillStyle : String
  strokeWidth : ℚ
  strokeStyle : String
  roughness : Nat
  opacity : Nat
  angle : ℚ
  x : ℚ
  y : ℚ
  strokeColor : String
  backgroundColor : String
  width : ℚ
  height : ℚ
  seed : Nat
  groupIds : List String
  frameId : Option String
  roundness : Option Unit
  boundElements : Option Unit
  updated : Nat
  link : Option String
  locked : Bool
  status : String
  fileId : String
  scale : ℚ × ℚ
  deriving Repr, DecidableEq

/-- Model of `ExcalidrawElement` from types.ts. -/
inductive ExcalidrawElement where
  | freedraw (e : FreedrawElement)
  | image (e : ImageElement)
  deriving Repr, DecidableEq

/-- Model of `ExcalidrawFile` from types.ts. -/
structure ExcalidrawFile where
  mimeType : String
  id : String
  dataURL : String
  created : Nat
  deriving Repr, DecidableEq

/-- Model of `ExcalidrawDocument` from types.ts (`appState` inlined; `files` as an
association list keyed by file id). -/
structure ExcalidrawDocument where
  type : String
  version : Nat
  source : String
  elements : List ExcalidrawElement
  viewBackgroundColor : String
  currentItemFontFamily : Nat
  files : List (String × ExcalidrawFile)
  deriving Repr, DecidableEq

/-- The background image the caller may attach (`setBackgroundImage`). -/
structure BgImage where
  dataUrl : String
  width : ℚ
  height : ℚ
  deriving Repr, DecidableEq

/-- Model of `isEraserStroke` from converter.ts: `PenType.ERASER` (4) or
`PenType.ERASER_V2` (16). -/
def isEraserStroke (stroke : Stroke) : Bool :=
  stroke.pen = 4 ∨ stroke.pen = 16

/-- Model of `Math.min(...l)` over the nonempty coordinate lists of `convertStroke`
(the zero-point guard runs first, so the empty case is never reached). -/
def listMin : List ℚ → ℚ
  | [] => 0
  | x :: xs => xs.foldl min x

/-- Model of `Math.max(...l)`, same convention as `listMin`. -/
def listMax : List ℚ → ℚ
  | [] => 0
  | x :: xs => xs.foldl max x

/-- Model of `calculatePressures` from converter.ts: uniform 0.5 for pens that are not
pressure-sensitive, otherwise the decoded pressures clamped to [0, 1]. -/
def calculatePressures (stroke : Stroke) (penChar : PenCharacteristics) : List ℚ :=
  if !penChar.pressureSensitive then
    stroke.points.map (fun _ => 1/2)
  else
    stroke.points.map (fun point => normalizePressure point.pressure)

/-- Model of `convertStroke` from converter.ts.  `glook` is the `layerGroupIds` map
built by `convert`; a JS `if (groupId)` guard drops both a missing and an
empty-string id. -/
def convertStroke (opts : ConversionOptions) (glook : Nat → Option String)
    (stroke : Stroke) (layerIndex : Nat) (ctx : GenCtx) (st : GenState) :
    Option FreedrawElement × GenState :=
  if stroke.points = [] then (none, st)
  else
    let penChar := getPenCharacteristics stroke.pen
    let strokeColor := getHexColor stroke.color
    let strokeWidth :=
      calculateStrokeWidth stroke.width penChar.baseMultiplier opts.strokeWidthScale
    let rawPoints := stroke.points.map (fun p => (p.x, p.y))
    let xs := rawPoints.map Prod.fst
    let ys := rawPoints.map Prod.snd
    let minX := listMin xs
    let minY := listMin ys
    let maxX := listMax xs
    let maxY := listMax ys
    let relativePoints := rawPoints.map (fun p => (p.1 - minX, p.2 - minY))
    let pressures := calculatePressures stroke penChar
    let groupIds : List String :=
      if opts.preserveLayers then
        match glook layerIndex with
        | some gid => if gid = "" then [] else [gid]
        | none => []
      else []
    let n1 := nextNow ctx st
    let i1 := nextId ctx n1.2
    let s1 := nextSeed ctx i1.2
    let n2 := nextNow ctx s1.2
    (some { version := 1, versionNonce := n1.1, isDeleted := false, id := i1.1,
            fillStyle := "solid", strokeWidth := strokeWidth,
            strokeStyle := penChar.strokeStyle, roughness := penChar.roughness,
            opacity := penChar.opacity, angle := 0, x := minX, y := minY,
            strokeColor := strokeColor, backgroundColor := "transparent",
            width := maxX - minX, height := maxY - minY, seed := s1.1,
            groupIds := groupIds, frameId := none, roundness := none,
            boundElements := none, updated := n2.1, link := none,
            locked := false, points := relativePoints, pressures := pressures,
            simulatePressure := penChar.simulatePressure,
            lastCommittedPoint := none },
     n2.2)

/-- Model of `createBackgroundImageElement` from converter.ts. -/
def createBackgroundImageElement (fileId : String) (width height : ℚ)
    (ctx : GenCtx) (st : GenState) : ImageElement × GenState :=
  let n1 := nextNow ctx st
  let i1 := nextId ctx n1.2
  let s1 := nextSeed ctx i1.2
  let n2 := nextNow ctx s1.2
  ({ version := 1, versionNonce := n1.1, isDeleted := false, id := i1.1,
     fillStyle := "solid", strokeWidth := 1, strokeStyle := "solid",
     roughness := 0, opacity := 100, angle := 0, x := 0, y := 0,
     strokeColor := "transparent", backgroundColor := "transparent",
     width := width, height := height, seed := s1.1, groupIds := [],
     frameId := none, roundness := none, boundElements := none,
     updated := n2.1, link := none, locked := true, status := "saved",
     fileId := fileId, scale := (1, 1) }, n2.2)

/-- The per-layer `generateId()` calls of `convert` (`layerGroupIds.set`),
one id per layer index, in index order. -/
def genLayerIds (ctx : GenCtx) : Nat → GenState → List String × GenState
  | 0, st => ([], st)
  | n + 1, st =>
    let g := nextId ctx st
    let rest := genLayerIds ctx n g.2
    (g.1 :: rest.1, rest.2)

/-- The inner `layer.forEach(stroke => ...)` loop of `convert`: skip eraser
strokes when excluded, drop strokes the per-stroke conversion rejects, keep
the emitted elements in order. -/
def convertStrokesList (opts : ConversionOptions) (glook : Nat → Option String)
    (ctx : GenCtx) : List Stroke → Nat → GenState →
    List FreedrawElement × GenState
  | [], _, st => ([], st)
  | s :: ss, layerIndex, st =>
    if !opts.includeEraser && isEraserStroke s then
      convertStrokesList opts glook ctx ss layerIndex st
    else
      match convertStroke opts glook s layerIndex ctx st with
      | (some e, st') =>
        let rest := convertStrokesList opts glook ctx ss layerIndex st'
        (e :: rest.1, rest.2)
      | (none, st') => convertStrokesList opts glook ctx ss layerIndex st'

/-- The outer `document.layers.forEach` loop of `convert`. -/
def convertLayers (opts : ConversionOptions) (glook : Nat → Option String)
    (ctx : GenCtx) : List (List Stroke) → Nat → GenState →
    List FreedrawElement × GenState
  | [], _, st => ([], st)
  | layer :: rest, layerIndex, st =>
    let es := convertStrokesList opts glook ctx layer layerIndex st
    let more := convertLayers opts glook ctx rest (layerIndex + 1) es.2
    (es.1 ++ more.1, more.2)

/-- Model of `convert` from converter.ts: optional background image element plus its
file-table entry, per-layer group ids, then all layers' strokes in order. -/
def convert (opts : ConversionOptions) (bg : Option BgImage)
    (doc : ParsedDocument) (ctx : GenCtx) : ExcalidrawDocument :=
  let bgPart : List ExcalidrawElement × List (String × ExcalidrawFile) × GenState :=
    match bg with
    | none => ([], [], GenState.start)
    | some b =>
      let f := nextId ctx GenState.start
      let img := createBackgroundImageElement f.1 b.width b.height ctx f.2
      let created := nextNow ctx img.2
      ([ExcalidrawElement.image img.1],
       [(f.1, { mimeType := "image/png", id := f.1, dataURL := b.dataUrl,
                created := created.1 })],
       created.2)
  let gidPart : List String × GenState :=
    if opts.preserveLayers then genLayerIds ctx doc.layers.length bgPart.2.2
    else ([], bgPart.2.2)
  let glook := fun i => gidPart.1.get? i
  let strokePart := convertLayers opts glook ctx doc.layers 0 gidPart.2
  { type := "excalidraw", version := 2, source := "obsidian-remarkable-import",
    elements := bgPart.1 ++ strokePart.1.map ExcalidrawElement.freedraw,
    viewBackgroundColor := "#ffffff", currentItemFontFamily := 1,
    files := bgPart.2.1 }

/-! ### Theorems -/

/-- C5: effective stroke width equals `clamp(baseWidth * penMultiplier *
userScale, 1, 16)`: for every input the computed width lies in [1, 16], and
for fixed nonnegative pen multiplier and user scale it is a monotonically
non-decreasing function of the base width (every pen multiplier the table
can produce is positive, and so is the settings slider's scale range). -/
theorem stroke_width_clamp_monotone :
    (∀ b m s : ℚ, calculateStrokeWidth b m s = max 1 (min 16 (b * m * s)) ∧
      1 ≤ calculateStrokeWidth b m s ∧ calculateStrokeWidth b m s ≤ 16) ∧
    (∀ m s b₁ b₂ : ℚ, 0 ≤ m → 0 ≤ s → b₁ ≤ b₂ →
      calculateStrokeWidth b₁ m s ≤ calculateStrokeWidth b₂ m s) ∧
    (∀ pen : Int, 0 < (getPenCharacteristics pen).baseMultiplier) := by
  refine ⟨fun b m s => ⟨rfl, le_max_left 1 _, ?_⟩, fun m s b₁ b₂ hm hs hb => ?_, fun pen => ?_⟩
  · exact max_le (by norm_num) (min_le_left 16 _)
  · unfold calculateStrokeWidth
    have : b₁ * m * s ≤ b₂ * m * s :=
      mul_le_mul_of_nonneg_right (mul_le_mul_of_nonneg_right hb hm) hs
    exact max_le_max le_rfl (min_le_min le_rfl this)
  · unfold getPenCharacteristics PEN_CHARACTERISTICS DEFAULT_PEN_CHARACTERISTICS
    split <;> norm_num

/-- Witness for C5 at concrete inputs (the fineliner case of the spec's
end-to-end scenario: 2.0 · 0.6 · 0.5 clamps up to 1). -/
theorem stroke_width_clamp_monotone_witness :
    (calculateStrokeWidth 2 (6/10) (1/2) = max 1 (min 16 (2 * (6/10) * (1/2))) ∧
      1 ≤ calculateStrokeWidth 2 (6/10) (1/2) ∧ calculateStrokeWidth 2 (6/10) (1/2) ≤ 16) ∧
    calculateStrokeWidth 2 (6/10) (1/2) ≤ calculateStrokeWidth 3 (6/10) (1/2) ∧
    0 < (getPenCharacteristics 99).baseMultiplier :=
  ⟨stroke_width_clamp_monotone.1 2 (6/10) (1/2),
   stroke_width_clamp_monotone.2.1 (6/10) (1/2) 2 3 (by norm_num) (by norm_num) (by norm_num),
   stroke_width_clamp_monotone.2.2 99⟩

/-- The `PenType` enum values that key `PEN_CHARACTERISTICS`. -/
def knownPenValues : List Int := [0, 1, 2, 3, 4, 5, 6, 7, 8, 12, 13, 14, 15, 16, 17, 18]

/-- The `RMColor` enum values that key `COLOR_MAP`. -/
def knownColorValues : List Int := [0, 1, 2, 3, 4, 5, 6, 7, 8]

/-- C8: pen-to-style and color-to-hex resolution are total functions; every
pen value outside the known enum set resolves to exactly the fixed fallback
(multiplier 1.0, pressure-sensitive, opacity 100, roughness 1, solid stroke
style, no simulated pressure) and every color value outside the known set
resolves to black. -/
theorem pen_color_fallback_total :
    (∀ pen : Int, pen ∉ knownPenValues →
      getPenCharacteristics pen =
        { baseMultiplier := 1, pressureSensitive := true, opacity := 100,
          roughness := 1, strokeStyle := "solid", simulatePressure := false }) ∧
    (∀ color : Int, color ∉ knownColorValues → getHexColor color = "#000000") := by
  constructor
  · intro pen h
    simp only [knownPenValues, List.mem_cons, List.not_mem_nil, or_false] at h
    push_neg at h
    unfold getPenCharacteristics PEN_CHARACTERISTICS DEFAULT_PEN_CHARACTERISTICS
    split <;> simp_all
  · intro color h
    simp only [knownColorValues, List.mem_cons, List.not_mem_nil, or_false] at h
    push_neg at h
    unfold getHexColor COLOR_MAP
    split <;> simp_all

/-- Witness for C8: pen 42 and color −1 resolve to the fallbacks. -/
theorem pen_color_fallback_total_witness :
    getPenCharacteristics 42 =
      { baseMultiplier := 1, pressureSensitive := true, opacity := 100,
        roughness := 1, strokeStyle := "solid", simulatePressure := false } ∧
    getHexColor (-1) = "#000000" :=
  ⟨pen_color_fallback_total.1 42 (by decide), pen_color_fallback_total.2 (-1) (by decide)⟩

/-- Folded minimum of a translated list: translating every element and the
accumulator by `-m` commutes with `min`. -/
theorem foldl_min_map_sub (m : ℚ) : ∀ (l : List ℚ) (a : ℚ),
    (l.map (fun v => v - m)).foldl min (a - m) = l.foldl min a - m := by
  intro l
  induction l with
  | nil => simp
  | cons y ys ih =>
    intro a
    simp only [List.map_cons, List.foldl_cons]
    rw [min_sub_sub_right]
    exact ih (min a y)

/-- Minimum of a translated nonempty list. -/
theorem listMin_map_sub_ne {α : Type} {l : List α} (hl : l ≠ []) (g : α → ℚ) (m : ℚ) :
    listMin (l.map (fun a => g a - m)) = listMin (l.map g) - m := by
  cases l with
  | nil => exact absurd rfl hl
  | cons x xs =>
    simp only [List.map_cons, listMin]
    have := foldl_min_map_sub m (xs.map g) (g x)
    rw [List.map_map] at this
    simpa [Function.comp] using this

/-- C6: for every stroke with at least one point, the emitted freehand
element sits at the minimum x/y of the raw points, its width and height are
the bounding-box extents, every output point is the raw point translated by
that minimum, and the translated point list has minimum 0 in both
coordinates. -/
theorem convertStroke_bounding_box :
    ∀ (opts : ConversionOptions) (glook : Nat → Option String) (stroke : Stroke)
      (layerIndex : Nat) (ctx : GenCtx) (st : GenState),
      stroke.points ≠ [] →
      ∃ e st2,
        convertStroke opts glook stroke layerIndex ctx st = (some e, st2) ∧
        e.x = listMin (stroke.points.map (fun p => p.x)) ∧
        e.y = listMin (stroke.points.map (fun p => p.y)) ∧
        e.width = listMax (stroke.points.map (fun p => p.x)) -
          listMin (stroke.points.map (fun p => p.x)) ∧
        e.height = listMax (stroke.points.map (fun p => p.y)) -
          listMin (stroke.points.map (fun p => p.y)) ∧
        e.points = stroke.points.map (fun p =>
          (p.x - listMin (stroke.points.map (fun q => q.x)),
           p.y - listMin (stroke.points.map (fun q => q.y)))) ∧
        listMin (e.points.map Prod.fst) = 0 ∧
        listMin (e.points.map Prod.snd) = 0 := by
  intro opts glook stroke layerIndex ctx st h
  unfold convertStroke
  rw [if_neg h]
  refine ⟨_, _, rfl, ?_, ?_, ?_, ?_, ?_, ?_, ?_⟩
  all_goals simp only [List.map_map, Function.comp_def]
  all_goals first
    | rfl
    | rw [listMin_map_sub_ne h (fun p => p.x) _, sub_self]
    | rw [listMin_map_sub_ne h (fun p => p.y) _, sub_self]

/-- A deterministic stand-in for the id/seed/time generators, used by the
concrete instances below. -/
def detGenCtx : GenCtx :=
  { idGen := fun n => "id" ++ toString n,
    seedGen := fun n => n + 7,
    nowGen := fun n => 1000 + n }

/-- A concrete two-point stroke for the C6 witness. -/
def sampleStroke : Stroke :=
  { pen := 2, color := 0, width := 2,
    points := [{ x := 0, y := 0, pressure := 0, width := 0, speed := 0, direction := 0 },
               { x := 10, y := 5, pressure := 0, width := 0, speed := 0, direction := 0 }],
    layerIndex := 0 }

/-- Witness for C6 on a concrete two-point stroke. -/
theorem convertStroke_bounding_box_witness :
    ∃ e st2,
      convertStroke DEFAULT_OPTIONS (fun _ => none) sampleStroke 0 detGenCtx
        GenState.start = (some e, st2) ∧
      e.x = listMin (sampleStroke.points.map (fun p => p.x)) ∧
      e.y = listMin (sampleStroke.points.map (fun p => p.y)) ∧
      e.width = listMax (sampleStroke.points.map (fun p => p.x)) -
        listMin (sampleStroke.points.map (fun p => p.x)) ∧
      e.height = listMax (sampleStroke.points.map (fun p => p.y)) -
        listMin (sampleStroke.points.map (fun p => p.y)) ∧
      e.points = sampleStroke.points.map (fun p =>
        (p.x - listMin (sampleStroke.points.map (fun q => q.x)),
         p.y - listMin (sampleStroke.points.map (fun q => q.y)))) ∧
      listMin (e.points.map Prod.fst) = 0 ∧
      listMin (e.points.map Prod.snd) = 0 :=
  convertStroke_bounding_box DEFAULT_OPTIONS (fun _ => none) sampleStroke 0
    detGenCtx GenState.start (by decide)

/-- Is an output element a freehand (stroke) element? -/
def isFreedrawEl : ExcalidrawElement → Bool
  | .freedraw _ => true
  | .image _ => false

/-- A decoded stroke that `convert` keeps: not an excluded eraser stroke,
and at least one point. -/
def keptStroke (opts : ConversionOptions) (s : Stroke) : Bool :=
  (opts.includeEraser || !isEraserStroke s) && !s.points.isEmpty

/-- A zero-point stroke converts to nothing and consumes no generator call. -/
theorem convertStroke_empty (opts : ConversionOptions) (glook : Nat → Option String)
    (s : Stroke) (li : Nat) (ctx : GenCtx) (st : GenState) (h : s.points = []) :
    convertStroke opts glook s li ctx st = (none, st) := by
  simp [convertStroke, h]

/-- A stroke with points converts to exactly one element. -/
theorem convertStroke_nonempty (opts : ConversionOptions) (glook : Nat → Option String)
    (s : Stroke) (li : Nat) (ctx : GenCtx) (st : GenState) (h : s.points ≠ []) :
    ∃ e st2, convertStroke opts glook s li ctx st = (some e, st2) := by
  unfold convertStroke
  rw [if_neg h]
  exact ⟨_, _, rfl⟩

/-- The stroke loop emits exactly one element per kept stroke. -/
theorem convertStrokesList_length (opts : ConversionOptions) (glook : Nat → Option String)
    (ctx : GenCtx) : ∀ (ss : List Stroke) (li : Nat) (st : GenState),
    (convertStrokesList opts glook ctx ss li st).1.length =
      (ss.filter (keptStroke opts)).length := by
  intro ss
  induction ss with
  | nil => intro li st; rfl
  | cons s rest ih =>
    intro li st
    by_cases he : (!opts.includeEraser && isEraserStroke s) = true
    · have hk : keptStroke opts s = false := by
        revert he
        unfold keptStroke
        cases opts.includeEraser <;> cases isEraserStroke s <;> simp
      simp [convertStrokesList, he, hk, ih]
    · have hor : (opts.includeEraser || !isEraserStroke s) = true := by
        revert he
        cases opts.includeEraser <;> cases isEraserStroke s <;> simp
      by_cases hp : s.points = []
      · have hk : keptStroke opts s = false := by
          unfold keptStroke
          simp [hp]
        simp [convertStrokesList, he, hk, ih, convertStroke_empty _ _ _ _ _ _ hp]
      · obtain ⟨e, st2, heq⟩ := convertStroke_nonempty opts glook s li ctx st hp
        have hk : keptStroke opts s = true := by
          unfold keptStroke
          simp [hor, hp]
        simp [convertStrokesList, he, hk, heq, ih]

/-- The layer loop emits one element per kept stroke of every layer. -/
theorem convertLayers_length (opts : ConversionOptions) (glook : Nat → Option String)
    (ctx : GenCtx) : ∀ (layers : List (List Stroke)) (li : Nat) (st : GenState),
    (convertLayers opts glook ctx layers li st).1.length =
      (layers.map (fun l => (l.filter (keptStroke opts)).length)).sum := by
  intro layers
  induction layers with
  | nil => intro li st; rfl
  | cons l rest ih =>
    intro li st
    simp [convertLayers, convertStrokesList_length, ih]

/-- C7: `convert` emits no element (and no error — it is total) for a
zero-point stroke or an excluded eraser stroke, and exactly one freehand
element for every other stroke; a document of only eraser strokes with
`includeEraser = false` yields zero freehand elements plus at most the
background image element. -/
theorem convert_stroke_filtering :
    (∀ opts bg doc ctx,
      (convert opts bg doc ctx).elements.length =
        (if bg.isSome then 1 else 0) +
        (doc.layers.map (fun l => (l.filter (keptStroke opts)).length)).sum) ∧
    (∀ opts bg doc ctx,
      ((convert opts bg doc ctx).elements.filter isFreedrawEl).length =
        (doc.layers.map (fun l => (l.filter (keptStroke opts)).length)).sum) ∧
    (∀ opts bg doc ctx,
      opts.includeEraser = false →
      (∀ layer ∈ doc.layers, ∀ s ∈ layer, isEraserStroke s = true) →
      (convert opts bg doc ctx).elements.filter isFreedrawEl = [] ∧
      (convert opts bg doc ctx).elements.length ≤ 1) := by
  have h1 : ∀ opts bg doc ctx,
      (convert opts bg doc ctx).elements.length =
        (if bg.isSome then 1 else 0) +
        (doc.layers.map (fun l => (l.filter (keptStroke opts)).length)).sum := by
    intro opts bg doc ctx
    cases bg with
    | none => simp [convert, convertLayers_length]
    | some b =>
      simp [convert, convertLayers_length]
      omega
  have h2 : ∀ opts bg doc ctx,
      ((convert opts bg doc ctx).elements.filter isFreedrawEl).length =
        (doc.layers.map (fun l => (l.filter (keptStroke opts)).length)).sum := by
    intro opts bg doc ctx
    cases bg with
    | none =>
      simp [convert, List.filter_map, Function.comp_def, isFreedrawEl, convertLayers_length]
    | some b =>
      simp [convert, List.filter_map, Function.comp_def, isFreedrawEl, convertLayers_length]
  refine ⟨h1, h2, ?_⟩
  intro opts bg doc ctx hincl hall
  have hsum : (doc.layers.map (fun l => (l.filter (keptStroke opts)).length)).sum = 0 := by
    apply List.sum_eq_zero
    intro x hx
    obtain ⟨l, hl, rfl⟩ := List.mem_map.1 hx
    have : l.filter (keptStroke opts) = [] := by
      apply List.filter_eq_nil_iff.2
      intro s hs
      have := hall l hl s hs
      unfold keptStroke
      simp [this, hincl]
    simp [this]
  constructor
  · have := h2 opts bg doc ctx
    rw [hsum] at this
    exact List.length_eq_zero.1 this
  · have := h1 opts bg doc ctx
    rw [hsum] at this
    cases bg <;> simp_all

/-- A one-layer document containing a single eraser stroke with points. -/
def eraserDoc : ParsedDocument :=
  { version := .V5,
    layers := [[{ pen := 4, color := 0, width := 2,
                  points := [{ x := 1, y := 2, pressure := 0, width := 0,
                               speed := 0, direction := 0 }],
                  layerIndex := 0 }]] }

/-- Witness for C7: the all-eraser document converts to no freehand
elements and at most one (background) element. -/
theorem convert_stroke_filtering_witness :
    (convert DEFAULT_OPTIONS none eraserDoc detGenCtx).elements.length =
      (if (none : Option BgImage).isSome then 1 else 0) +
      (eraserDoc.layers.map
        (fun l => (l.filter (keptStroke DEFAULT_OPTIONS)).length)).sum ∧
    (convert DEFAULT_OPTIONS none eraserDoc detGenCtx).elements.filter
      isFreedrawEl = [] ∧
    (convert DEFAULT_OPTIONS none eraserDoc detGenCtx).elements.length ≤ 1 :=
  ⟨convert_stroke_filtering.1 DEFAULT_OPTIONS none eraserDoc detGenCtx,
   convert_stroke_filtering.2.2 DEFAULT_OPTIONS none eraserDoc detGenCtx rfl
     (by decide)⟩

deriving instance DecidableEq for Except

/-- C9: every point record decoded from a revision-6 points subblock
normalizes its raw fields exactly: speed and width are the raw little-endian
uint16 divided by 65535, direction is the raw byte divided by 255 and scaled
to 360 degrees, pressure is the raw byte divided by 255. -/
theorem v6_point_normalization :
    ∀ (buf : Buf) (blockEnd n c : Nat) (pts : List Point) (c2 : Nat),
      parseV6Points buf blockEnd n c = .ok (pts, c2) →
      ∀ (k : Nat) (hk : k < pts.length),
        ∃ speed width dir press,
          readU16 buf (c + 14 * k + 8) = some speed ∧
          readU16 buf (c + 14 * k + 10) = some width ∧
          byteAt buf (c + 14 * k + 12) = some dir ∧
          byteAt buf (c + 14 * k + 13) = some press ∧
          (pts.get ⟨k, hk⟩).speed = (speed : ℚ) / 65535 ∧
          (pts.get ⟨k, hk⟩).width = (width : ℚ) / 65535 ∧
          (pts.get ⟨k, hk⟩).direction = ((dir : ℚ) / 255) * 360 ∧
          (pts.get ⟨k, hk⟩).pressure = (press : ℚ) / 255 := by
  intro buf blockEnd n
  induction n with
  | zero =>
    intro c pts c2 h k hk
    simp only [parseV6Points] at h
    cases h
    simp at hk
  | succ m ih =>
    intro c pts c2 h k hk
    rw [parseV6Points] at h
    by_cases hle : c + 14 ≤ blockEnd
    · rw [if_pos hle] at h
      cases hx : readF32 buf c with
      | none => rw [hx] at h; cases h
      | some xv =>
      cases hy : readF32 buf (c + 4) with
      | none => rw [hx, hy] at h; cases h
      | some yv =>
      cases hs : readU16 buf (c + 8) with
      | none => rw [hx, hy, hs] at h; cases h
      | some sv =>
      cases hw : readU16 buf (c + 10) with
      | none => rw [hx, hy, hs, hw] at h; cases h
      | some wv =>
      cases hd : byteAt buf (c + 12) with
      | none => rw [hx, hy, hs, hw, hd] at h; cases h
      | some dv =>
      cases hp : byteAt buf (c + 13) with
      | none => rw [hx, hy, hs, hw, hd, hp] at h; cases h
      | some pv =>
      rw [hx, hy, hs, hw, hd, hp] at h
      cases hrec : parseV6Points buf blockEnd m (c + 14) with
      | error e => rw [hrec] at h; cases h
      | ok pr =>
        obtain ⟨pts1, c1⟩ := pr
        rw [hrec] at h
        simp only [Except.ok.injEq, Prod.mk.injEq] at h
        obtain ⟨hpts, hc2⟩ := h
        subst hpts
        cases k with
        | zero =>
          refine ⟨sv, wv, dv, pv, ?_, ?_, ?_, ?_, rfl, rfl, rfl, rfl⟩ <;>
            simpa using ‹_›
        | succ k =>
          have hk1 : k < pts1.length := by simpa using hk
          obtain ⟨s2, w2, d2, p2, h1, h2, h3, h4, h5, h6, h7, h8⟩ :=
            ih (c + 14) pts1 c1 hrec k hk1
          refine ⟨s2, w2, d2, p2, ?_, ?_, ?_, ?_, ?_, ?_, ?_, ?_⟩
          · rw [show c + 14 * (k + 1) + 8 = c + 14 + 14 * k + 8 from by omega]; exact h1
          · rw [show c + 14 * (k + 1) + 10 = c + 14 + 14 * k + 10 from by omega]; exact h2
          · rw [show c + 14 * (k + 1) + 12 = c + 14 + 14 * k + 12 from by omega]; exact h3
          · rw [show c + 14 * (k + 1) + 13 = c + 14 + 14 * k + 13 from by omega]; exact h4
          · exact h5
          · exact h6
          · exact h7
          · exact h8
    · rw [if_neg hle] at h
      cases h
      simp at hk

set_option maxRecDepth 4000

/-- A single 14-byte revision-6 point record with all normalized fields at
their maximum raw values. -/
def v6PointRecord : Buf := [0, 0, 0, 0, 0, 0, 0, 0, 255, 255, 255, 255, 255, 255]

/-- Witness for C9: raw speed/width 0xFFFF normalize to exactly 1, raw
direction byte 255 to 360 degrees, raw pressure byte 255 to exactly 1. -/
theorem v6_point_normalization_witness :
    parseV6Points v6PointRecord 14 1 0 =
      .ok ([{ x := 0, y := 0, pressure := 1, width := 1, speed := 1,
              direction := 360 }], 14) ∧
    ∃ speed width dir press,
      readU16 v6PointRecord (0 + 14 * 0 + 8) = some speed ∧
      readU16 v6PointRecord (0 + 14 * 0 + 10) = some width ∧
      byteAt v6PointRecord (0 + 14 * 0 + 12) = some dir ∧
      byteAt v6PointRecord (0 + 14 * 0 + 13) = some press ∧
      (([{ x := 0, y := 0, pressure := 1, width := 1, speed := 1,
           direction := 360 }] : List Point).get ⟨0, by decide⟩).speed =
        (speed : ℚ) / 65535 ∧
      (([{ x := 0, y := 0, pressure := 1, width := 1, speed := 1,
           direction := 360 }] : List Point).get ⟨0, by decide⟩).width =
        (width : ℚ) / 65535 ∧
      (([{ x := 0, y := 0, pressure := 1, width := 1, speed := 1,
           direction := 360 }] : List Point).get ⟨0, by decide⟩).direction =
        ((dir : ℚ) / 255) * 360 ∧
      (([{ x := 0, y := 0, pressure := 1, width := 1, speed := 1,
           direction := 360 }] : List Point).get ⟨0, by decide⟩).pressure =
        (press : ℚ) / 255 :=
  ⟨by decide,
   v6_point_normalization v6PointRecord 14 1 0 _ 14 (by decide) 0 (by decide)⟩

/-- C2: forward compatibility of the revision-6 line-definition decoder.
For any tag whose field index is outside the recognized set 1–7 (including
index 0 and the negative indices a high tag pattern produces), the step
consumes exactly the bytes dictated by the wire type — 1, 4 or 8 bytes for
the scalar types, the 4-byte length then its payload for the
length-prefixed type, two varuints for the CRDT-id type — leaves the stroke
state untouched, and lands the cursor exactly at the start of the next
field. -/
theorem v6_unknown_field_cursor_advance :
    ∀ (buf : Buf) (blockEnd : Nat) (st : V6State) (c : Nat),
      (tagIndex (readVaruint buf c).1 < 1 ∨ 7 < tagIndex (readVaruint buf c).1) →
      ((tagType (readVaruint buf c).1 = 1 →
        parseV6StrokeStep buf blockEnd st c = .ok (st, (readVaruint buf c).2 + 1)) ∧
       (tagType (readVaruint buf c).1 = 4 →
        parseV6StrokeStep buf blockEnd st c = .ok (st, (readVaruint buf c).2 + 4)) ∧
       (tagType (readVaruint buf c).1 = 8 →
        parseV6StrokeStep buf blockEnd st c = .ok (st, (readVaruint buf c).2 + 8)) ∧
       (∀ len, tagType (readVaruint buf c).1 = 12 →
        readU32 buf (readVaruint buf c).2 = some len →
        parseV6StrokeStep buf blockEnd st c = .ok (st, (readVaruint buf c).2 + 4 + len)) ∧
       (tagType (readVaruint buf c).1 = 15 →
        parseV6StrokeStep buf blockEnd st c =
          .ok (st, skipCrdtId buf (readVaruint buf c).2))) := by
  intro buf blockEnd st c h
  have h1 : tagIndex (readVaruint buf c).1 ≠ 1 := by omega
  have h2 : tagIndex (readVaruint buf c).1 ≠ 2 := by omega
  have h3 : tagIndex (readVaruint buf c).1 ≠ 3 := by omega
  have h4 : tagIndex (readVaruint buf c).1 ≠ 4 := by omega
  have h5 : tagIndex (readVaruint buf c).1 ≠ 5 := by omega
  have h67 : ¬(tagIndex (readVaruint buf c).1 = 6 ∨ tagIndex (readVaruint buf c).1 = 7) := by
    omega
  unfold parseV6StrokeStep
  rw [if_neg h1, if_neg h2, if_neg h3, if_neg h4, if_neg h5, if_neg h67]
  refine ⟨?_, ?_, ?_, ?_, ?_⟩
  · intro ht; rw [if_pos ht]
  · intro ht
    rw [if_neg (by omega : ¬tagType (readVaruint buf c).1 = 1), if_pos ht]
  · intro ht
    rw [if_neg (by omega : ¬tagType (readVaruint buf c).1 = 1),
        if_neg (by omega : ¬tagType (readVaruint buf c).1 = 4), if_pos ht]
  · intro len ht hread
    rw [if_neg (by omega : ¬tagType (readVaruint buf c).1 = 1),
        if_neg (by omega : ¬tagType (readVaruint buf c).1 = 4),
        if_neg (by omega : ¬tagType (readVaruint buf c).1 = 8), if_pos ht, hread]
  · intro ht
    rw [if_neg (by omega : ¬tagType (readVaruint buf c).1 = 1),
        if_neg (by omega : ¬tagType (readVaruint buf c).1 = 4),
        if_neg (by omega : ¬tagType (readVaruint buf c).1 = 8),
        if_neg (by omega : ¬tagType (readVaruint buf c).1 = 12), if_pos ht]

/-- Witness for C2: a two-byte varuint tag with unknown index 9 and wire
type 4 advances the cursor by exactly 4 payload bytes, and with wire type 12
by exactly 4 length bytes plus the declared payload length. -/
theorem v6_unknown_field_cursor_advance_witness :
    parseV6StrokeStep [148, 1, 0, 0, 0, 0] 99 V6State.init 0 =
      .ok (V6State.init, 6) ∧
    parseV6StrokeStep [156, 1, 5, 0, 0, 0] 99 V6State.init 0 =
      .ok (V6State.init, 11) :=
  ⟨(v6_unknown_field_cursor_advance [148, 1, 0, 0, 0, 0] 99 V6State.init 0
      (by decide)).2.1 (by decide),
   (v6_unknown_field_cursor_advance [156, 1, 5, 0, 0, 0] 99 V6State.init 0
      (by decide)).2.2.2.1 5 (by decide) (by decide)⟩

/-- A revision-6 buffer: 43-byte header, a valid LINE_DEF block holding one
point, a corrupted block whose length field reads 0, then a second valid
LINE_DEF block holding one point. -/
def v6TestBuf : Buf :=
  List.replicate 43 0 ++
  [19, 0, 0, 0, 0, 2, 2, 5] ++
  [92] ++ [14, 0, 0, 0] ++
  [0, 0, 0, 0, 0, 0, 0, 0, 255, 255, 255, 255, 255, 255] ++
  [0, 0, 0, 0, 0, 2, 2, 5] ++
  [19, 0, 0, 0, 0, 2, 2, 5] ++
  [92] ++ [14, 0, 0, 0] ++
  [0, 0, 0, 0, 0, 0, 0, 0, 255, 255, 255, 255, 255, 255]

/-- The stroke each valid block of `v6TestBuf` decodes to. -/
def v6TestStroke : Stroke :=
  { pen := 0, color := 0, width := 1,
    points := [{ x := 0, y := 0, pressure := 1, width := 1, speed := 1,
                 direction := 360 }],
    layerIndex := 0 }

/-- C4: a `(length, flag)` pair whose declared length is zero, overruns the
remaining buffer, or exceeds the 10,000,000-byte ceiling is never fatal —
the scan continues at exactly one byte past the block start; `parseV6`
always returns a (single-layer) success; and the concrete buffer with one
corrupted block-length field still yields the strokes of both valid blocks
around it. -/
theorem v6_block_resynchronization :
    (∀ buf : Buf, ∃ strokes,
      parseV6 buf = .success { version := .V6, layers := [strokes] }) ∧
    (∀ (buf : Buf) (fuel c : Nat) (acc : List Stroke),
      c + 8 ≤ buf.length →
      (readU32D buf c = 0 ∨ readU32D buf c > buf.length - (c + 8) ∨
        readU32D buf c > 10000000) →
      parseV6Loop buf (fuel + 1) c acc = parseV6Loop buf fuel (c + 1) acc) ∧
    parseV6 v6TestBuf =
      .success { version := .V6, layers := [[v6TestStroke, v6TestStroke]] } := by
  refine ⟨fun buf => ⟨_, rfl⟩, ?_, by decide⟩
  intro buf fuel c acc hle hbad
  rw [parseV6Loop, if_pos hle, if_pos hbad]

/-- Witness for C4: the corrupted block of `v6TestBuf` at offset 70
resynchronizes to offset 71. -/
theorem v6_block_resynchronization_witness :
    parseV6Loop v6TestBuf 35 70 [v6TestStroke] =
      parseV6Loop v6TestBuf 34 71 [v6TestStroke] :=
  v6_block_resynchronization.2.1 v6TestBuf 34 70 [v6TestStroke]
    (by decide) (by decide)

/-- C3: revision-3/5 structural validation.  An out-of-range layer count
(negative or above 100), stroke count or point count (negative or above
100,000), a stroke header or point array that would run past the buffer,
each yields a structured error — the result type carries no partial
document.  A failing stroke is reported as `Stroke i: …` and aborts its
layer at once; a failing layer is reported as `Failed to parse layer ℓ: …`
and aborts the whole decode, surfacing exactly that error. -/
theorem v5_structural_error_aborts :
    (∀ (buf : Buf) (ver : RMVersion),
      HEADER_SIZES ver + 4 ≤ buf.length →
      (readI32D buf (HEADER_SIZES ver) < 0 ∨ readI32D buf (HEADER_SIZES ver) > 100) →
      parseV5 buf ver = .failure
        { message := "Invalid layer count: " ++
            toString (readI32D buf (HEADER_SIZES ver)) ++ ". Expected 0-100.",
          offset := HEADER_SIZES ver }) ∧
    (∀ (buf : Buf) (ver : RMVersion) (li c : Nat),
      c + 4 ≤ buf.length →
      (readI32D buf c < 0 ∨ readI32D buf c > 100000) →
      parseLayer buf ver li c =
        (.error ("Invalid stroke count: " ++ toString (readI32D buf c)), c + 4)) ∧
    (∀ (buf : Buf) (ver : RMVersion) (li c : Nat),
      c + strokeHeaderSize ver > buf.length →
      parseStroke buf ver li c = (.error "Cannot read stroke header", c)) ∧
    (∀ (buf : Buf) (ver : RMVersion) (li c : Nat),
      c + strokeHeaderSize ver ≤ buf.length →
      (readI32D buf (c + strokeHeaderSize ver - 4) < 0 ∨
        readI32D buf (c + strokeHeaderSize ver - 4) > 100000) →
      parseStroke buf ver li c =
        (.error ("Invalid point count: " ++
          toString (readI32D buf (c + strokeHeaderSize ver - 4))),
         c + strokeHeaderSize ver)) ∧
    (∀ (buf : Buf) (ver : RMVersion) (li c : Nat),
      c + strokeHeaderSize ver ≤ buf.length →
      0 ≤ readI32D buf (c + strokeHeaderSize ver - 4) →
      readI32D buf (c + strokeHeaderSize ver - 4) ≤ 100000 →
      c + strokeHeaderSize ver +
        (readI32D buf (c + strokeHeaderSize ver - 4)).toNat * 24 > buf.length →
      parseStroke buf ver li c =
        (.error ("Not enough bytes for " ++
          toString (readI32D buf (c + strokeHeaderSize ver - 4)) ++ " points"),
         c + strokeHeaderSize ver)) ∧
    (∀ (buf : Buf) (ver : RMVersion) (li i k c : Nat) (acc : List Stroke)
      (e : String) (c2 : Nat),
      parseStroke buf ver li c = (.error e, c2) →
      parseStrokesAux buf ver li i (k + 1) c acc =
        (.error ("Stroke " ++ toString i ++ ": " ++ e), c2)) ∧
    (∀ (buf : Buf) (ver : RMVersion) (idx k c : Nat) (acc : List (List Stroke))
      (e : String) (c2 : Nat),
      parseLayer buf ver idx c = (.error e, c2) →
      parseLayersAux buf ver idx (k + 1) c acc =
        (.error { message := "Failed to parse layer " ++ toString idx ++ ": " ++ e,
                  offset := c2 }, c2)) ∧
    (∀ (buf : Buf) (ver : RMVersion) (e : ParseError) (c2 : Nat),
      HEADER_SIZES ver + 4 ≤ buf.length →
      0 ≤ readI32D buf (HEADER_SIZES ver) →
      readI32D buf (HEADER_SIZES ver) ≤ 100 →
      parseLayersAux buf ver 0 (readI32D buf (HEADER_SIZES ver)).toNat
        (HEADER_SIZES ver + 4) [] = (.error e, c2) →
      parseV5 buf ver = .failure e) := by
  refine ⟨?_, ?_, ?_, ?_, ?_, ?_, ?_, ?_⟩
  · intro buf ver hle hbad
    unfold parseV5
    rw [if_neg (by omega), if_pos hbad]
  · intro buf ver li c hle hbad
    unfold parseLayer
    rw [if_neg (by omega), if_pos hbad]
  · intro buf ver li c h
    unfold parseStroke
    rw [if_pos h]
  · intro buf ver li c hle hbad
    have hoff : (if ver = RMVersion.V3 then c + 16 else c + 20) =
        c + strokeHeaderSize ver - 4 := by
      unfold strokeHeaderSize
      split <;> omega
    unfold parseStroke
    rw [if_neg (by omega), hoff, if_pos hbad]
  · intro buf ver li c hle h0 h100k hpts
    have hoff : (if ver = RMVersion.V3 then c + 16 else c + 20) =
        c + strokeHeaderSize ver - 4 := by
      unfold strokeHeaderSize
      split <;> omega
    unfold parseStroke
    rw [if_neg (by omega), hoff, if_neg (by omega), if_pos hpts]
  · intro buf ver li i k c acc e c2 h
    rw [parseStrokesAux, h]
  · intro buf ver idx k c acc e c2 h
    rw [parseLayersAux, h]
  · intro buf ver e c2 hle h0 h100 h
    unfold parseV5
    rw [if_neg (by omega), if_neg (by omega), h]

/-- A v3 buffer whose layer count reads 200. -/
def v3BadLayersBuf : Buf :=
  asciiBytes "reMarkable .lines file, version=3" ++ [200, 0, 0, 0]

/-- Four bytes reading 100001 as a little-endian int32. -/
def strokeCountBuf : Buf := [161, 134, 1, 0]

/-- A 20-byte v3 stroke header whose point count reads −1. -/
def pointCountBuf : Buf := List.replicate 16 0 ++ [255, 255, 255, 255]

/-- A 20-byte v3 stroke header announcing one point with no bytes after. -/
def pointBytesBuf : Buf := List.replicate 16 0 ++ [1, 0, 0, 0]

/-- A v3 buffer with one layer of one stroke whose header is truncated. -/
def layerFailBuf : Buf :=
  asciiBytes "reMarkable .lines file, version=3" ++ [1, 0, 0, 0] ++ [1, 0, 0, 0] ++ [0, 0]

/-- Witness for C3 at concrete buffers: each validation failure, the
stroke/layer error wrapping, and the whole-decode abort. -/
theorem v5_structural_error_aborts_witness :
    parseV5 v3BadLayersBuf .V3 = .failure
      { message := "Invalid layer count: " ++
          toString (readI32D v3BadLayersBuf (HEADER_SIZES .V3)) ++ ". Expected 0-100.",
        offset := HEADER_SIZES .V3 } ∧
    parseLayer strokeCountBuf .V5 0 0 =
      (.error ("Invalid stroke count: " ++ toString (readI32D strokeCountBuf 0)), 0 + 4) ∧
    parseStroke [] .V5 0 0 = (.error "Cannot read stroke header", 0) ∧
    parseStroke pointCountBuf .V3 0 0 =
      (.error ("Invalid point count: " ++
        toString (readI32D pointCountBuf (0 + strokeHeaderSize .V3 - 4))),
       0 + strokeHeaderSize .V3) ∧
    parseStroke pointBytesBuf .V3 0 0 =
      (.error ("Not enough bytes for " ++
        toString (readI32D pointBytesBuf (0 + strokeHeaderSize .V3 - 4)) ++ " points"),
       0 + strokeHeaderSize .V3) ∧
    parseStrokesAux [] .V5 0 0 (0 + 1) 0 [] =
      (.error ("Stroke " ++ toString 0 ++ ": " ++ "Cannot read stroke header"), 0) ∧
    parseLayersAux [] .V5 0 (0 + 1) 0 [] =
      (.error { message := "Failed to parse layer " ++ toString 0 ++ ": " ++
                  "Cannot read stroke count", offset := 0 }, 0) ∧
    parseV5 layerFailBuf .V3 = .failure
      { message := "Failed to parse layer 0: Stroke 0: Cannot read stroke header",
        offset := 41 } :=
  ⟨v5_structural_error_aborts.1 v3BadLayersBuf .V3 (by decide) (by decide),
   v5_structural_error_aborts.2.1 strokeCountBuf .V5 0 0 (by decide) (by decide),
   v5_structural_error_aborts.2.2.1 [] .V5 0 0 (by decide),
   v5_structural_error_aborts.2.2.2.1 pointCountBuf .V3 0 0 (by decide) (by decide),
   v5_structural_error_aborts.2.2.2.2.1 pointBytesBuf .V3 0 0 (by decide) (by decide)
     (by decide) (by decide),
   v5_structural_error_aborts.2.2.2.2.2.1 [] .V5 0 0 0 0 [] "Cannot read stroke header" 0
     (by decide),
   v5_structural_error_aborts.2.2.2.2.2.2.1 [] .V5 0 0 0 [] "Cannot read stroke count" 0
     (by decide),
   v5_structural_error_aborts.2.2.2.2.2.2.2 layerFailBuf .V3
     { message := "Failed to parse layer 0: Stroke 0: Cannot read stroke header",
       offset := 41 } 41 (by decide) (by decide) (by decide) (by decide)⟩

/-- Two distinct byte patterns of equal length cannot both be prefixes of
the same header. -/
theorem hdrStartsWith_excl {p q h : List Nat} (hlen : p.length = q.length)
    (hne : p ≠ q) (hp : hdrStartsWith p h = true) :
    hdrStartsWith q h = false := by
  unfold hdrStartsWith at *
  by_contra hq
  rw [Bool.not_eq_false] at hq
  rw [List.isPrefixOf_iff_prefix] at hp hq
  exact hne (by rw [List.prefix_iff_eq_take.1 hp, List.prefix_iff_eq_take.1 hq, hlen])

/-- C1 (amended): version detection is a three-way classification in which
magic-prefix matching takes precedence.  For buffers of at least 33 bytes:
a recognized version prefix (6, then 5, then 3) validates with that
version; when none of the three prefixes matches but the general magic
pattern does and the header contains `version=` followed by a digit, the
result is the `Unsupported version: N` error naming the first such parsed
number; otherwise the generic invalid-header error.  Buffers under 33 bytes
get the too-small error.  A successful decode implies the header started
with one of the three recognized prefixes. -/
theorem version_detection_three_way :
    (∀ buf : Buf, 33 ≤ buf.length →
      ((hdrStartsWith HEADER_V6 (buf.take 43) = true →
          validateHeader buf = { valid := true, version := .V6, error := none }) ∧
       (hdrStartsWith HEADER_V5 (buf.take 43) = true →
          validateHeader buf = { valid := true, version := .V5, error := none }) ∧
       (hdrStartsWith HEADER_V3 (buf.take 43) = true →
          validateHeader buf = { valid := true, version := .V3, error := none }) ∧
       (hdrStartsWith HEADER_V6 (buf.take 43) = false →
        hdrStartsWith HEADER_V5 (buf.take 43) = false →
        hdrStartsWith HEADER_V3 (buf.take 43) = false →
        hdrStartsWith HEADER_MAGIC (buf.take 43) = true →
        ∀ n, findVer (buf.take 43) = some n →
          validateHeader buf =
            { valid := false, version := .UNKNOWN,
              error := some ("Unsupported version: " ++ toString n ++
                ". Supported versions: 3, 5, 6") }) ∧
       (hdrStartsWith HEADER_V6 (buf.take 43) = false →
        hdrStartsWith HEADER_V5 (buf.take 43) = false →
        hdrStartsWith HEADER_V3 (buf.take 43) = false →
        (hdrStartsWith HEADER_MAGIC (buf.take 43) = false ∨
          findVer (buf.take 43) = none) →
        validateHeader buf =
          { valid := false, version := .UNKNOWN,
            error := some "Invalid file format: missing reMarkable header magic string" }))) ∧
    (∀ buf : Buf, buf.length < 33 →
      validateHeader buf =
        { valid := false, version := .UNKNOWN,
          error := some ("File too small: " ++ toString buf.length ++
            " bytes, minimum 33 required") }) ∧
    (∀ (buf : Buf) (doc : ParsedDocument), parse buf = .success doc →
      33 ≤ buf.length ∧
      (hdrStartsWith HEADER_V6 (buf.take 43) = true ∨
       hdrStartsWith HEADER_V5 (buf.take 43) = true ∨
       hdrStartsWith HEADER_V3 (buf.take 43) = true)) := by
  refine ⟨?_, ?_, ?_⟩
  · intro buf hlen
    have hnot : ¬buf.length < 33 := by omega
    refine ⟨?_, ?_, ?_, ?_, ?_⟩
    · intro h6
      unfold validateHeader
      rw [if_neg hnot, if_pos h6]
    · intro h5
      have h6 : hdrStartsWith HEADER_V6 (buf.take 43) = false :=
        hdrStartsWith_excl (by decide) (by decide) h5
      unfold validateHeader
      rw [if_neg hnot]
      simp only [h6, h5, Bool.false_eq_true, if_false, if_true]
    · intro h3
      have h6 : hdrStartsWith HEADER_V6 (buf.take 43) = false :=
        hdrStartsWith_excl (by decide) (by decide) h3
      have h5 : hdrStartsWith HEADER_V5 (buf.take 43) = false :=
        hdrStartsWith_excl (by decide) (by decide) h3
      unfold validateHeader
      rw [if_neg hnot]
      simp only [h6, h5, h3, Bool.false_eq_true, if_false, if_true]
    · intro h6 h5 h3 hm n hfind
      unfold validateHeader
      rw [if_neg hnot]
      simp only [h6, h5, h3, hm, Bool.false_eq_true, if_false, if_true, hfind]
    · intro h6 h5 h3 hrest
      unfold validateHeader
      rw [if_neg hnot]
      cases hrest with
      | inl hm =>
        simp only [h6, h5, h3, hm, Bool.false_eq_true, if_false]
      | inr hfind =>
        by_cases hm : hdrStartsWith HEADER_MAGIC (buf.take 43) = true
        · simp only [h6, h5, h3, hm, Bool.false_eq_true, if_false, if_true, hfind]
        · simp only [h6, h5, h3, Bool.false_eq_true, if_false]
          rw [if_neg hm]
  · intro buf hlen
    unfold validateHeader
    rw [if_pos hlen]
  · intro buf doc h
    unfold parse at h
    by_cases hlen : buf.length < 33
    · exfalso
      unfold validateHeader at h
      rw [if_pos hlen] at h
      simp at h
    · refine ⟨by omega, ?_⟩
      by_cases h6 : hdrStartsWith HEADER_V6 (buf.take 43) = true
      · exact Or.inl h6
      by_cases h5 : hdrStartsWith HEADER_V5 (buf.take 43) = true
      · exact Or.inr (Or.inl h5)
      by_cases h3 : hdrStartsWith HEADER_V3 (buf.take 43) = true
      · exact Or.inr (Or.inr h3)
      exfalso
      rw [Bool.not_eq_true] at h6 h5 h3
      unfold validateHeader at h
      rw [if_neg hlen] at h
      simp only [h6, h5, h3, Bool.false_eq_true, if_false] at h
      by_cases hm : hdrStartsWith HEADER_MAGIC (buf.take 43) = true
      · rw [if_pos hm] at h
        cases hfind : findVer (buf.take 43) with
        | none => rw [hfind] at h; simp at h
        | some n => rw [hfind] at h; simp at h
      · rw [if_neg hm] at h
        simp at h

/-- Witness for C1's amended theorem: the `version=9` header from the spec
produces the unsupported-version error naming 9. -/
theorem version_detection_three_way_witness :
    validateHeader (asciiBytes "reMarkable .lines file, version=9") =
      { valid := false, version := .UNKNOWN,
        error := some ("Unsupported version: " ++ toString 9 ++
          ". Supported versions: 3, 5, 6") } :=
  ((version_detection_three_way.1 (asciiBytes "reMarkable .lines file, version=9")
    (by decide)).2.2.2.1 (by decide) (by decide) (by decide) (by decide) 9 (by decide))

/-- The 34-byte buffer whose header text reads
`reMarkable .lines file, version=35`. -/
def b35 : Buf := asciiBytes "reMarkable .lines file, version=35"

/-- Counterexample to C1 as stated: `b35` matches the general magic pattern
with parsed revision number 35 ∉ {3, 5, 6}, yet header validation accepts
it (the version-3 prefix matches first), and the decode then fails with the
end-of-file error — not with an `Unsupported version` error naming 35. -/
theorem version_detection_prefix_precedence_cex :
    hdrStartsWith HEADER_MAGIC (b35.take 43) = true ∧
    findVer (b35.take 43) = some 35 ∧
    ¬(35 = 3 ∨ 35 = 5 ∨ 35 = 6) ∧
    validateHeader b35 = { valid := true, version := .V3, error := none } ∧
    parse b35 =
      .failure { message := "Unexpected end of file: cannot read layer count",
                 offset := 33 } :=
  ⟨by decide, by decide, by decide, by decide, by decide⟩


/-- Zero the time-based fields of a freehand element (`versionNonce`,
`updated` are `Date.now()` values). -/
def scrubFree (e : FreedrawElement) : FreedrawElement :=
  { e with versionNonce := 0, updated := 0 }

/-- Zero the time-based fields of an image element. -/
def scrubImage (e : ImageElement) : ImageElement :=
  { e with versionNonce := 0, updated := 0 }

/-- Zero the time-based fields of any element. -/
def scrubEl : ExcalidrawElement → ExcalidrawElement
  | .freedraw e => .freedraw (scrubFree e)
  | .image e => .image (scrubImage e)

/-- Zero the time-based field of an embedded file (`created`). -/
def scrubFile (f : ExcalidrawFile) : ExcalidrawFile :=
  { f with created := 0 }

/-- Zero every time-based field of an output document. -/
def scrubDoc (d : ExcalidrawDocument) : ExcalidrawDocument :=
  { d with elements := d.elements.map scrubEl,
           files := d.files.map (fun p => (p.1, scrubFile p.2)) }

/-- Per-stroke conversion depends on the clock only through the scrubbed
fields, and its generator counters not at all. -/
theorem convertStroke_scrub (opts : ConversionOptions) (glook : Nat → Option String)
    (s : Stroke) (li : Nat) (idg : Nat → String) (sg : Nat → Nat)
    (ng1 ng2 : Nat → Nat) (st : GenState) :
    (convertStroke opts glook s li ⟨idg, sg, ng1⟩ st).2 =
      (convertStroke opts glook s li ⟨idg, sg, ng2⟩ st).2 ∧
    Option.map scrubFree (convertStroke opts glook s li ⟨idg, sg, ng1⟩ st).1 =
      Option.map scrubFree (convertStroke opts glook s li ⟨idg, sg, ng2⟩ st).1 := by
  by_cases h : s.points = []
  · simp [convertStroke, h]
  · unfold convertStroke
    rw [if_neg h, if_neg h]
    constructor
    · rfl
    · simp [scrubFree, nextNow, nextId, nextSeed]

/-- The per-layer group ids depend only on the id generator. -/
theorem genLayerIds_ng (idg : Nat → String) (sg : Nat → Nat) (ng1 ng2 : Nat → Nat) :
    ∀ (n : Nat) (st : GenState),
    genLayerIds ⟨idg, sg, ng1⟩ n st = genLayerIds ⟨idg, sg, ng2⟩ n st := by
  intro n
  induction n with
  | zero => intro st; rfl
  | succ m ih => intro st; simp [genLayerIds, nextId, ih]

/-- The stroke loop: same id/seed streams give scrub-equal elements and
identical final counters, for any two clocks. -/
theorem convertStrokesList_scrub (opts : ConversionOptions) (glook : Nat → Option String)
    (idg : Nat → String) (sg : Nat → Nat) (ng1 ng2 : Nat → Nat) :
    ∀ (ss : List Stroke) (li : Nat) (st : GenState),
    (convertStrokesList opts glook ⟨idg, sg, ng1⟩ ss li st).2 =
      (convertStrokesList opts glook ⟨idg, sg, ng2⟩ ss li st).2 ∧
    (convertStrokesList opts glook ⟨idg, sg, ng1⟩ ss li st).1.map scrubFree =
      (convertStrokesList opts glook ⟨idg, sg, ng2⟩ ss li st).1.map scrubFree := by
  intro ss
  induction ss with
  | nil => intro li st; exact ⟨rfl, rfl⟩
  | cons s rest ih =>
    intro li st
    by_cases he : (!opts.includeEraser && isEraserStroke s) = true
    · simp only [convertStrokesList, he, if_true]
      exact ih li st
    · obtain ⟨hsnd, hfst⟩ := convertStroke_scrub opts glook s li idg sg ng1 ng2 st
      cases h1 : convertStroke opts glook s li ⟨idg, sg, ng1⟩ st with
      | mk o1 st1 =>
      cases h2 : convertStroke opts glook s li ⟨idg, sg, ng2⟩ st with
      | mk o2 st2 =>
      rw [h1, h2] at hsnd hfst
      simp only at hsnd hfst
      subst hsnd
      simp only [convertStrokesList, he, if_false]
      cases o1 with
      | none =>
        cases o2 with
        | none =>
          rw [h1, h2]
          simp only [Bool.false_eq_true, if_false]
          exact ih li st1
        | some e2 => simp at hfst
      | some e1 =>
        cases o2 with
        | none => simp at hfst
        | some e2 =>
          have hfe : scrubFree e1 = scrubFree e2 := by simpa using hfst
          obtain ⟨hl2, hr2⟩ := ih li st1
          rw [h1, h2]
          refine ⟨?_, ?_⟩ <;>
            simp only [Bool.false_eq_true, if_false, List.map_cons, hfe, hl2, hr2]

/-- The layer loop: same id/seed streams give scrub-equal elements. -/
theorem convertLayers_scrub (opts : ConversionOptions) (glook : Nat → Option String)
    (idg : Nat → String) (sg : Nat → Nat) (ng1 ng2 : Nat → Nat) :
    ∀ (layers : List (List Stroke)) (li : Nat) (st : GenState),
    (convertLayers opts glook ⟨idg, sg, ng1⟩ layers li st).2 =
      (convertLayers opts glook ⟨idg, sg, ng2⟩ layers li st).2 ∧
    (convertLayers opts glook ⟨idg, sg, ng1⟩ layers li st).1.map scrubFree =
      (convertLayers opts glook ⟨idg, sg, ng2⟩ layers li st).1.map scrubFree := by
  intro layers
  induction layers with
  | nil => intro li st; exact ⟨rfl, rfl⟩
  | cons l rest ih =>
    intro li st
    obtain ⟨hs, hf⟩ := convertStrokesList_scrub opts glook idg sg ng1 ng2 l li st
    simp only [convertLayers]
    rw [hs]
    obtain ⟨hs2, hf2⟩ :=
      ih (li + 1) (convertStrokesList opts glook ⟨idg, sg, ng2⟩ l li st).2
    constructor
    · exact hs2
    · simp only [List.map_append, hf, hf2]

/-- Scrubbing commutes with wrapping freehand elements. -/
theorem map_scrubEl_freedraw (l : List FreedrawElement) :
    List.map scrubEl (l.map ExcalidrawElement.freedraw) =
      (l.map scrubFree).map ExcalidrawElement.freedraw := by
  simp [List.map_map, Function.comp_def, scrubEl]

/-- C10: `convert` is a pure function of the decoded document, the options
and the three injected streams (unique ids, render seeds, clock); with the
same id and seed streams, two conversions of the same document agree on
every field except the intentionally time-based ones (`versionNonce`,
`updated`, `created`), whatever the clock returns. -/
theorem convert_deterministic_mod_time :
    ∀ (opts : ConversionOptions) (bg : Option BgImage) (doc : ParsedDocument)
      (idg : Nat → String) (sg : Nat → Nat) (ng1 ng2 : Nat → Nat),
      scrubDoc (convert opts bg doc ⟨idg, sg, ng1⟩) =
        scrubDoc (convert opts bg doc ⟨idg, sg, ng2⟩) := by
  intro opts bg doc idg sg ng1 ng2
  cases bg with
  | none =>
    unfold convert scrubDoc
    simp only []
    by_cases hp : opts.preserveLayers = true
    · rw [hp]
      simp only [if_true]
      rw [genLayerIds_ng idg sg ng1 ng2 doc.layers.length GenState.start]
      obtain ⟨hs, hf⟩ := convertLayers_scrub opts
        (fun i => (genLayerIds ⟨idg, sg, ng2⟩ doc.layers.length GenState.start).1.get? i)
        idg sg ng1 ng2 doc.layers 0
        (genLayerIds ⟨idg, sg, ng2⟩ doc.layers.length GenState.start).2
      simp only [List.nil_append]
      congr 1
      rw [map_scrubEl_freedraw, map_scrubEl_freedraw, hf]
    · simp only [hp, Bool.false_eq_true, if_false]
      obtain ⟨hs, hf⟩ := convertLayers_scrub opts
        (fun i => ([] : List String).get? i) idg sg ng1 ng2 doc.layers 0 GenState.start
      simp only [List.nil_append]
      congr 1
      rw [map_scrubEl_freedraw, map_scrubEl_freedraw, hf]
  | some b =>
    unfold convert scrubDoc
    simp only [nextId, nextNow, nextSeed, GenState.start, createBackgroundImageElement,
      Nat.reduceAdd]
    by_cases hp : opts.preserveLayers = true
    · rw [hp]
      simp only [if_true]
      rw [genLayerIds_ng idg sg ng1 ng2 doc.layers.length
        { idN := 2, seedN := 1, nowN := 3 }]
      obtain ⟨hs, hf⟩ := convertLayers_scrub opts
        (fun i => (genLayerIds ⟨idg, sg, ng2⟩ doc.layers.length
          { idN := 2, seedN := 1, nowN := 3 }).1.get? i)
        idg sg ng1 ng2 doc.layers 0
        (genLayerIds ⟨idg, sg, ng2⟩ doc.layers.length
          { idN := 2, seedN := 1, nowN := 3 }).2
      simp only [ExcalidrawDocument.mk.injEq, true_and, and_true]
      constructor
      · simp only [List.map_append, List.map_cons, List.map_nil, scrubEl, scrubImage]
        rw [map_scrubEl_freedraw, map_scrubEl_freedraw, hf]
      · simp [scrubFile]
    · simp only [hp, Bool.false_eq_true, if_false]
      obtain ⟨hs, hf⟩ := convertLayers_scrub opts
        (fun i => ([] : List String).get? i) idg sg ng1 ng2 doc.layers 0
        { idN := 2, seedN := 1, nowN := 3 }
      simp only [ExcalidrawDocument.mk.injEq, true_and, and_true]
      constructor
      · simp only [List.map_append, List.map_cons, List.map_nil, scrubEl, scrubImage]
        rw [map_scrubEl_freedraw, map_scrubEl_freedraw, hf]
      · simp [scrubFile]


end ReMarkSync
